import Mathlib

/-!
Verification of the status/incident polling pipeline of the DraXon_AI bot
(`src/cogs/rsi_status_monitor.py`, `src/cogs/rsi_incidents_monitor.py`,
`src/cogs/incidents.py`).

The Python code is shallowly embedded: times of day are minutes since
midnight (`0 ≤ t < 1440`), HTTP attempts are an oracle `Nat → AttemptResult`,
the HTML soup is a list of `Block`s, the RSS feed a list of `Entry`s, and the
cogs' mutable state is passed explicitly.  Each definition mirrors one Python
function, named after it where Lean allows.
-/

namespace DraXon

/-! ## Maintenance-window gate

`check_maintenance_window` (identical in `rsi_status_monitor.py` lines 62-85
and `rsi_incidents_monitor.py` lines 139-162).  `maintenance_start` is a
time of day parsed from `"HH:MM"`; the end time is obtained by adding
`MAINTENANCE_DURATION` hours on the same calendar date and taking `.time()`,
i.e. the end-of-window time of day wraps modulo one day.  Times of day are
modelled as minutes since midnight; `minutesPerDay = 1440`. -/

def minutesPerDay : Nat := 1440

/-- Embedding of `check_maintenance_window`: `startMin` is the parsed
`MAINTENANCE_START` in minutes, `durHours` the `MAINTENANCE_DURATION` in
hours, `now` the current time of day in minutes. -/
def check_maintenance_window (startMin durHours now : Nat) : Bool :=
  let endMin := (startMin + 60 * durHours) % minutesPerDay
  if endMin < startMin then
    decide (startMin ≤ now) || decide (now ≤ endMin)
  else
    decide (startMin ≤ now) && decide (now ≤ endMin)

/-! ## HTTP fetcher

`make_request` (`rsi_status_monitor.py` lines 35-60, `rsi_incidents_monitor.py`
lines 35-56): up to `max_retries` attempts; an attempt either yields an HTTP
response with a status code and a body, times out, or raises a transport
error.  Only status 200 is a success and returns the body; after a failed
attempt other than the last the coroutine sleeps `2 ** attempt` seconds.
The oracle `outcome i` gives the result of attempt number `i` (0-based). -/

inductive AttemptResult where
  | response (status : Nat) (body : String)
  | timeout
  | connectionError
deriving DecidableEq

/-- Result of the whole retry loop: the returned value, the list of backoff
sleeps performed (in seconds, in order), and how many attempts were made. -/
structure RequestTrace where
  result : Option String
  sleeps : List Nat
  attemptsMade : Nat
deriving DecidableEq

/-- The `if response.status == 200: return await response.text()` test: the
body an attempt returns, `none` when the attempt is a non-200 response,
a timeout or a transport error. -/
def attemptSuccess : AttemptResult → Option String
  | .response status body => if status = 200 then some body else none
  | .timeout => none
  | .connectionError => none

/-- Loop body of `make_request`: `i` is the current 0-based attempt index,
the second argument the number of attempts still allowed.  A non-200
response, a timeout and a transport error all fall through; a sleep of
`2 ^ i` seconds happens exactly when the failed attempt is not the last
(`attempt < max_retries - 1`). -/
def make_request_go (outcome : Nat → AttemptResult) (i : Nat) : Nat → RequestTrace
  | 0 => ⟨none, [], 0⟩
  | remaining + 1 =>
    match attemptSuccess (outcome i) with
    | some body => ⟨some body, [], 1⟩
    | none =>
      if remaining = 0 then ⟨none, [], 1⟩
      else
        let rest := make_request_go outcome (i + 1) remaining
        ⟨rest.result, 2 ^ i :: rest.sleeps, rest.attemptsMade + 1⟩

/-- Embedding of `make_request` with its default `max_retries = 3`
(parameterised here by `maxRetries`). -/
def make_request (outcome : Nat → AttemptResult) (maxRetries : Nat) : RequestTrace :=
  make_request_go outcome 0 maxRetries

/-! ## Status page parsing and `check_status` (`rsi_status_monitor.py`)

The soup produced by BeautifulSoup is modelled as a list of `Block`s, one per
`div.component`.  `nameSpan` is the text of the `span.name` child (`none` if
the span is absent), `statusSpan` is the `span.component-status` child
(`none` if absent), whose value is its `data-status` attribute (`none` if
the attribute is absent; the code defaults it to `"unknown"`). -/

/-- Python `str.lower()` on the characters of a string. -/
def pyLower (s : String) : String := String.mk (s.toList.map Char.toLower)

/-- Python `str.strip()`: drop leading and trailing whitespace. -/
def pyStrip (s : String) : String :=
  String.mk (((s.toList.dropWhile Char.isWhitespace).reverse.dropWhile
    Char.isWhitespace).reverse)

/-- Bool-valued contiguous-sublist test on character lists, mirroring
Python's `needle in hay` on strings. -/
def subOf (needle : List Char) : List Char → Bool
  | [] => needle.isEmpty
  | c :: t => List.isPrefixOf needle (c :: t) || subOf needle t

/-- Python's `needle in hay` substring test. -/
def strHasSub (needle hay : String) : Bool := subOf needle.toList hay.toList

/-- The three tracked components, keys of `self.system_statuses`. -/
inductive Component where
  | platform
  | persistentUniverse
  | electronicAccess
deriving DecidableEq

/-- The `self.system_statuses` dictionary: one state string per tracked
component (`'platform'`, `'persistent-universe'`, `'electronic-access'`). -/
structure Statuses where
  platform : String
  persistentUniverse : String
  electronicAccess : String
deriving DecidableEq

/-- Initial value of `self.system_statuses` (constructor, lines 23-27). -/
def initialStatuses : Statuses := ⟨"operational", "operational", "operational"⟩

/-- Read one component's state out of the dictionary. -/
def getComp (st : Statuses) : Component → String
  | .platform => st.platform
  | .persistentUniverse => st.persistentUniverse
  | .electronicAccess => st.electronicAccess

/-- Overwrite one component's state in the dictionary. -/
def setComp (st : Statuses) : Component → String → Statuses
  | .platform, v => ⟨v, st.persistentUniverse, st.electronicAccess⟩
  | .persistentUniverse, v => ⟨st.platform, v, st.electronicAccess⟩
  | .electronicAccess, v => ⟨st.platform, st.persistentUniverse, v⟩

/-- One `div.component` block of the status page. -/
structure Block where
  nameSpan : Option String
  statusSpan : Option (Option String)
deriving DecidableEq

/-- Component routing of `check_status` (lines 120-132): the span text is
stripped and lowercased, then matched by substring against `'platform'`,
`'persistent universe'` and `'arena commander'` in this `if`/`elif` order;
any other name is ignored. -/
def routeName (nm : String) : Option Component :=
  let n := pyLower (pyStrip nm)
  if strHasSub "platform" n then some Component.platform
  else if strHasSub "persistent universe" n then some Component.persistentUniverse
  else if strHasSub "arena commander" n then some Component.electronicAccess
  else none

/-- Body of the `for component in soup.find_all(...)` loop (lines 113-135):
skip the block when either span is missing, default a missing `data-status`
attribute to `"unknown"`, set `status_changed` when the routed component's
held state differs, and overwrite it. -/
def processBlock (sc : Statuses × Bool) (b : Block) : Statuses × Bool :=
  match b.nameSpan, b.statusSpan with
  | some nm, some attr =>
    let status := attr.getD "unknown"
    match routeName nm with
    | some comp => (setComp sc.1 comp status, sc.2 || decide (getComp sc.1 comp ≠ status))
    | none => sc
  | _, _ => sc

/-- The whole parse/diff loop of `check_status`, run against the held
snapshot with `status_changed` initially false. -/
def runBlocks (held : Statuses) (blocks : List Block) : Statuses × Bool :=
  blocks.foldl processBlock (held, false)

/-- Which component a block would update (`none` for skipped or
unrecognised blocks). -/
def blockTargets (b : Block) : Option Component :=
  match b.nameSpan, b.statusSpan with
  | some nm, some _ => routeName nm
  | _, _ => none

/-- A sparse status snapshot: the decoded `hgetall('system_status')` result,
or the set of components a parse actually found. -/
structure SnapshotPatch where
  platform : Option String
  persistentUniverse : Option String
  electronicAccess : Option String
deriving DecidableEq

/-- The empty sparse snapshot (an empty hash in the store). -/
def emptyPatch : SnapshotPatch := ⟨none, none, none⟩

/-- Python truthiness of the `hgetall` result: at least one field present. -/
def patchNonempty (p : SnapshotPatch) : Bool :=
  p.platform.isSome || p.persistentUniverse.isSome || p.electronicAccess.isSome

/-- The `self.system_statuses.update(cached)` merge: every field the patch
mentions is overwritten, every other field keeps its held value. -/
def applyPatch (st : Statuses) (p : SnapshotPatch) : Statuses :=
  ⟨p.platform.getD st.platform,
   p.persistentUniverse.getD st.persistentUniverse,
   p.electronicAccess.getD st.electronicAccess⟩

/-- Inputs one `check_status` call reads from its environment: the cached
hash from the store, the maintenance-window predicate's value, and the
outcome of `make_request` (already parsed into blocks when successful). -/
structure StatusEnv where
  cached : SnapshotPatch
  inWindow : Bool
  fetch : Option (List Block)
deriving DecidableEq

/-- Observable outcome of one `check_status` call: the returned value, the
held snapshot afterwards, and which effects ran on this tick. -/
structure CheckOutcome where
  result : Option Statuses
  statuses : Statuses
  windowChecked : Bool
  fetchAttempted : Bool
  parsed : Bool
  persisted : Bool
deriving DecidableEq

/-- Snapshot with every tracked component set to `'maintenance'`
(lines 99-100). -/
def allMaintenance : Statuses := ⟨"maintenance", "maintenance", "maintenance"⟩

/-- Embedding of `check_status` (lines 87-161): a non-empty cached hash is
merged over the held snapshot and returned at once; otherwise an in-window
tick overwrites every component with `'maintenance'` and returns; otherwise
a failed fetch returns `None`, and a successful fetch runs the parse/diff
loop, persisting (hmset/expire/lpush) exactly when `status_changed`. -/
def check_status (held : Statuses) (env : StatusEnv) : CheckOutcome :=
  if patchNonempty env.cached then
    let st := applyPatch held env.cached
    ⟨some st, st, false, false, false, false⟩
  else if env.inWindow then
    ⟨some allMaintenance, allMaintenance, true, false, false, false⟩
  else
    match env.fetch with
    | none => ⟨none, held, true, true, false, false⟩
    | some blocks =>
      let r := runBlocks held blocks
      ⟨some r.1, r.1, true, true, true, r.2⟩

/-- The blocks a sparse snapshot corresponds to on the status page: one
block per mentioned component, carrying that component's canonical name. -/
def patchBlocks (p : SnapshotPatch) : List Block :=
  (match p.platform with
   | some v => [⟨some "platform", some (some v)⟩]
   | none => []) ++
  (match p.persistentUniverse with
   | some v => [⟨some "persistent universe", some (some v)⟩]
   | none => []) ++
  (match p.electronicAccess with
   | some v => [⟨some "arena commander", some (some v)⟩]
   | none => [])

/-- `diff_and_update` of the spec: feed a partial snapshot through the
parse/diff loop of `check_status`, yielding the updated snapshot and the
`status_changed` flag. -/
def diff_and_update (held : Statuses) (p : SnapshotPatch) : Statuses × Bool :=
  runBlocks held (patchBlocks p)

/-! ## Incident feed (`rsi_incidents_monitor.py`, `incidents.py`)

A feed entry carries its guid, title, description, link and the list of
category/tag terms; the constructed incident record is a pure function of
the newest entry.  (The Python dict also stores a `datetime.now()`
timestamp, which no claim depends on; it is omitted here.) -/

/-- The keys of `STATUS_EMOJIS` (`constants.py` lines 128-134); the code
tests tags with `tag.term in STATUS_EMOJIS`, i.e. key membership. -/
def statusKeywords : List String :=
  ["operational", "degraded", "partial", "major", "maintenance"]

/-- Membership of a tag term among the status-state keywords. -/
def isStatusKeyword (t : String) : Bool := statusKeywords.contains t

/-- One feed entry as `feedparser` exposes it. -/
structure Entry where
  guid : String
  title : String
  description : String
  link : String
  tags : List String
deriving DecidableEq

/-- The incident record built by `get_latest_incident`. -/
structure Incident where
  guid : String
  title : String
  description : String
  link : String
  components : List String
  status : String
deriving DecidableEq

/-- Construction of the incident dict from the newest entry
(`rsi_incidents_monitor.py` lines 188-203): `components` keeps the tags that
are not status keywords, `status` is the first status-keyword tag, defaulting
to `'unknown'` (`next(..., 'unknown')`). -/
def incidentOfEntry (e : Entry) : Incident :=
  ⟨e.guid, e.title, e.description, e.link,
   e.tags.filter (fun t => !isStatusKeyword t),
   (e.tags.find? (fun t => isStatusKeyword t)).getD "unknown"⟩

/-- Outcome of `feedparser.parse` on fetched content: either the handling
raised (caught by the enclosing `except`) or it produced a list of
entries, newest first. -/
inductive ParseOutcome where
  | failed
  | entries (es : List Entry)
deriving DecidableEq

/-- Inputs one `get_latest_incident` call reads: the maintenance-window
predicate's value, the cached `'latest_incident'` record from the store,
the `make_request` outcome, and the feed parser. -/
structure IncidentFetchEnv where
  inWindow : Bool
  cachedIncident : Option Incident
  fetched : Option String
  parse : String → ParseOutcome

/-- Result of `get_latest_incident` plus whether the
cache-write/history-insert step for a freshly built incident ran. -/
structure FetchResult where
  incident : Option Incident
  stored : Bool
deriving DecidableEq

/-- Embedding of `get_latest_incident` (`rsi_incidents_monitor.py` lines
164-219): in-window ticks, cache hits, failed fetches, parser exceptions and
empty feeds all yield no fresh incident; otherwise the newest entry is
turned into an incident, cached and stored in history. -/
def get_latest_incident (env : IncidentFetchEnv) : FetchResult :=
  if env.inWindow then ⟨none, false⟩
  else
    match env.cachedIncident with
    | some c => ⟨some c, false⟩
    | none =>
      match env.fetched with
      | none => ⟨none, false⟩
      | some content =>
        match env.parse content with
        | .failed => ⟨none, false⟩
        | .entries [] => ⟨none, false⟩
        | .entries (e :: _) => ⟨some (incidentOfEntry e), true⟩

/-! ## The incident polling loop (`check_incidents_task` and its hooks)

State of the monitor: the in-memory `self.last_incident_guid` and the
persisted `'last_incident_id'` key of the store. -/

/-- Monitor state: held last-seen guid and its persisted copy. -/
structure IncMonitorState where
  lastGuid : Option String
  persisted : Option String
deriving DecidableEq

/-- One tick of `check_incidents_task` (lines 238-276): `latest` is what
`get_latest_incident` returned, `channelOk` whether the notification channel
was found and the send completed.  Returns the new state and whether a
notification was emitted.  The held guid is updated before the channel
lookup; the persisted copy is written only after a completed send. -/
def check_incidents_tick (s : IncMonitorState) (latest : Option Incident)
    (channelOk : Bool) : IncMonitorState × Bool :=
  match latest with
  | none => (s, false)
  | some i =>
    if s.lastGuid = some i.guid then (s, false)
    else if channelOk then (⟨some i.guid, some i.guid⟩, true)
    else (⟨some i.guid, s.persisted⟩, false)

/-- Events in the life of the monitor: a polling tick, a restart (the
`before_incidents_check` hook reloads the held guid from the store), and a
clean shutdown (the `after_incidents_check` hook flushes a set held guid to
the store). -/
inductive IncEvent where
  | tick (latest : Option Incident) (channelOk : Bool)
  | restart
  | shutdown
deriving DecidableEq

/-- Transition of the monitor state on one event, with the emission flag. -/
def stepEvent (s : IncMonitorState) : IncEvent → IncMonitorState × Bool
  | .tick latest ok => check_incidents_tick s latest ok
  | .restart => (⟨s.persisted, s.persisted⟩, false)
  | .shutdown => (⟨s.lastGuid, if s.lastGuid.isSome then s.lastGuid else s.persisted⟩, false)

/-- Number of notifications emitted along a run of events. -/
def countEmits (s : IncMonitorState) : List IncEvent → Nat
  | [] => 0
  | e :: es => (stepEvent s e).2.toNat + countEmits (stepEvent s e).1 es

/-- An event is compatible with a fixed latest-incident guid `g`: every
tick's fetched incident is either absent or carries guid `g`. -/
def eventSameGuid (g : String) : IncEvent → Bool
  | .tick none _ => true
  | .tick (some i) _ => i.guid == g
  | .restart => true
  | .shutdown => true

/-- The monitor has already announced guid `g`: both the held and the
persisted last-seen id equal `g`. -/
def seenGuid (g : String) (s : IncMonitorState) : Prop :=
  s.lastGuid = some g ∧ s.persisted = some g

/-! ## Theorems -/

/-- C2: for every clock value, the gate computes the window end as
start + duration as a time of day; when the end precedes the start the
window crosses midnight and membership is `now ≥ start ∨ now ≤ end`,
otherwise membership is `start ≤ now ≤ end`; in the non-crossing case every
instant strictly inside `(start, start + duration)` is in the window and
every instant outside `[start, start + duration]` is not. -/
theorem check_maintenance_window_spec (startMin durHours now : Nat) :
    ((startMin + 60 * durHours) % minutesPerDay < startMin →
      (check_maintenance_window startMin durHours now = true ↔
        (startMin ≤ now ∨ now ≤ (startMin + 60 * durHours) % minutesPerDay)))
    ∧ (startMin + 60 * durHours < minutesPerDay →
      (check_maintenance_window startMin durHours now = true ↔
        (startMin ≤ now ∧ now ≤ startMin + 60 * durHours)))
    ∧ (startMin + 60 * durHours < minutesPerDay → startMin < now →
        now < startMin + 60 * durHours →
        check_maintenance_window startMin durHours now = true)
    ∧ (startMin + 60 * durHours < minutesPerDay →
        (now < startMin ∨ startMin + 60 * durHours < now) →
        check_maintenance_window startMin durHours now = false) := by
  have hnc : startMin + 60 * durHours < minutesPerDay →
      (check_maintenance_window startMin durHours now = true ↔
        (startMin ≤ now ∧ now ≤ startMin + 60 * durHours)) := by
    intro h
    have he : (startMin + 60 * durHours) % minutesPerDay = startMin + 60 * durHours :=
      Nat.mod_eq_of_lt h
    have hlt : ¬ (startMin + 60 * durHours < startMin) := by omega
    simp only [check_maintenance_window, he, hlt, if_false, Bool.and_eq_true,
      decide_eq_true_eq]
  refine ⟨?_, hnc, ?_, ?_⟩
  · intro h
    simp only [check_maintenance_window, h, if_true, Bool.or_eq_true, decide_eq_true_eq]
  · intro h h1 h2
    exact (hnc h).mpr ⟨Nat.le_of_lt h1, Nat.le_of_lt h2⟩
  · intro h hout
    cases hb : check_maintenance_window startMin durHours now
    · rfl
    · rcases (hnc h).mp hb with ⟨ha, hb2⟩
      omega

/-- C2 witness: with start 22:00 and duration 3h the window crosses
midnight and 00:30 is inside it; with start 10:00 and duration 2h, 11:00 is
inside and 02:01 outside. -/
theorem check_maintenance_window_spec_witness :
    check_maintenance_window 1320 3 30 = true ∧
    check_maintenance_window 600 2 660 = true ∧
    check_maintenance_window 600 2 121 = false :=
  ⟨((check_maintenance_window_spec 1320 3 30).1 (by decide)).mpr (Or.inr (by decide)),
   (check_maintenance_window_spec 600 2 660).2.2.1 (by decide) (by decide) (by decide),
   (check_maintenance_window_spec 600 2 121).2.2.2 (by decide) (Or.inl (by decide))⟩

/-- Exhausted last attempt: with one attempt left and a failing attempt the
loop returns `None` without a further sleep. -/
theorem make_request_go_last_fail (outcome : Nat → AttemptResult) (i : Nat)
    (h : attemptSuccess (outcome i) = none) :
    make_request_go outcome i 1 = ⟨none, [], 1⟩ := by
  simp [make_request_go, h]

/-- Failing attempt with retries left: sleep `2 ^ i` seconds and continue. -/
theorem make_request_go_step_fail (outcome : Nat → AttemptResult) (i r : Nat)
    (h : attemptSuccess (outcome i) = none) :
    make_request_go outcome i (r + 2) =
      ⟨(make_request_go outcome (i + 1) (r + 1)).result,
       2 ^ i :: (make_request_go outcome (i + 1) (r + 1)).sleeps,
       (make_request_go outcome (i + 1) (r + 1)).attemptsMade + 1⟩ := by
  simp [make_request_go, h]

/-- Successful attempt: the body is returned at once. -/
theorem make_request_go_success (outcome : Nat → AttemptResult) (i r : Nat)
    (body : String) (h : attemptSuccess (outcome i) = some body) :
    make_request_go outcome i (r + 1) = ⟨some body, [], 1⟩ := by
  simp [make_request_go, h]

/-- The loop never makes more attempts than allowed. -/
theorem make_request_go_attempts_le (outcome : Nat → AttemptResult) :
    ∀ r i, (make_request_go outcome i r).attemptsMade ≤ r := by
  intro r
  induction r with
  | zero => intro i; exact Nat.le_refl 0
  | succ n ih =>
    intro i
    cases h : attemptSuccess (outcome i) with
    | some body =>
      rw [make_request_go_success outcome i n _ h]
      show 1 ≤ n + 1
      omega
    | none =>
      match n with
      | 0 =>
        rw [make_request_go_last_fail outcome i h]
      | m + 1 =>
        have e := make_request_go_step_fail outcome i m h
        have hr := ih (i + 1)
        show (make_request_go outcome i (m + 2)).attemptsMade ≤ m + 2
        rw [e]
        show (make_request_go outcome (i + 1) (m + 1)).attemptsMade + 1 ≤ m + 2
        omega

/-- C4 counterexample: on an input where every attempt times out, the
retry loop sleeps exactly twice, 1s then 2s — not the claimed 1s/2s/4s
schedule. -/
theorem make_request_sleeps_counterexample :
    (make_request (fun _ => AttemptResult.timeout) 3).sleeps = [1, 2] ∧
    (make_request (fun _ => AttemptResult.timeout) 3).sleeps ≠ [1, 2, 4] := by
  decide

/-- C4 (amended): with the default `max_retries = 3`, when every attempt
fails (non-200 status, timeout or transport error) the fetch makes exactly
3 attempts, sleeps `2 ^ attempt` seconds between consecutive attempts —
i.e. 1s then 2s — and returns an absent result; it never makes more than 3
attempts; and whenever the first succeeding attempt returns HTTP 200 with a
body, that body is returned. -/
theorem make_request_retry_spec (outcome : Nat → AttemptResult) :
    ((∀ i, i < 3 → attemptSuccess (outcome i) = none) →
      make_request outcome 3 = ⟨none, [1, 2], 3⟩)
    ∧ (make_request outcome 3).attemptsMade ≤ 3
    ∧ (∀ i body, i < 3 → (∀ j, j < i → attemptSuccess (outcome j) = none) →
        attemptSuccess (outcome i) = some body →
        (make_request outcome 3).result = some body) := by
  refine ⟨?_, make_request_go_attempts_le outcome 3 0, ?_⟩
  · intro h
    have h0 := h 0 (by omega)
    have h1 := h 1 (by omega)
    have h2 := h 2 (by omega)
    simp [make_request, make_request_go, h0, h1, h2]
  · intro i body hi hprev hsucc
    interval_cases i
    · simp [make_request, make_request_go, hsucc]
    · have h0 := hprev 0 (by omega)
      simp [make_request, make_request_go, h0, hsucc]
    · have h0 := hprev 0 (by omega)
      have h1 := hprev 1 (by omega)
      simp [make_request, make_request_go, h0, h1, hsucc]

/-- C4 witness: a run where every attempt times out exhausts the three
attempts with sleeps 1s and 2s, and a run whose second attempt answers 200
returns its body. -/
theorem make_request_retry_spec_witness :
    make_request (fun _ => AttemptResult.timeout) 3 = ⟨none, [1, 2], 3⟩ ∧
    (make_request
      (fun i => if i = 1 then AttemptResult.response 200 "body" else AttemptResult.timeout)
      3).result = some "body" :=
  ⟨(make_request_retry_spec (fun _ => AttemptResult.timeout)).1 (fun i _ => rfl),
   (make_request_retry_spec _).2.2 1 "body" (by omega)
     (by intro j hj; interval_cases j; rfl) (by rfl)⟩

/-- C3 counterexample: on a tick with an empty cache and the gate reporting
in-window, `check_status` indeed performs no fetch, but it does not leave
the held snapshot unchanged: from `{platform: operational, pu: degraded,
ea: operational}` every component is overwritten with `'maintenance'`. -/
theorem check_status_in_window_counterexample :
    (check_status ⟨"operational", "degraded", "operational"⟩
      ⟨emptyPatch, true, none⟩).fetchAttempted = false ∧
    (check_status ⟨"operational", "degraded", "operational"⟩
      ⟨emptyPatch, true, none⟩).statuses.platform = "maintenance" ∧
    (check_status ⟨"operational", "degraded", "operational"⟩
      ⟨emptyPatch, true, none⟩).statuses ≠ ⟨"operational", "degraded", "operational"⟩ := by
  decide

/-- C3 (amended): on every tick on which the cache is empty and the gate
reports in-window, `check_status` performs no fetch, no parse and no
persistence write, but overwrites every component's state with the fixed
value `'maintenance'` and returns that snapshot. -/
theorem check_status_in_window_spec (held : Statuses) (env : StatusEnv)
    (hc : patchNonempty env.cached = false) (hw : env.inWindow = true) :
    check_status held env =
      ⟨some allMaintenance, allMaintenance, true, false, false, false⟩ := by
  simp [check_status, hc, hw]

/-- C3 witness: the amended behaviour at a concrete held snapshot. -/
theorem check_status_in_window_spec_witness :
    check_status ⟨"operational", "degraded", "operational"⟩ ⟨emptyPatch, true, none⟩ =
      ⟨some allMaintenance, allMaintenance, true, false, false, false⟩ :=
  check_status_in_window_spec ⟨"operational", "degraded", "operational"⟩
    ⟨emptyPatch, true, none⟩ rfl rfl

/-- C10: on every tick on which the store holds a non-empty cached status
hash, `check_status` merges it over the held snapshot and returns the
result at once, with no maintenance-window check, no fetch, no parse, no
change detection and no persistence write. -/
theorem check_status_cached_spec (held : Statuses) (env : StatusEnv)
    (hc : patchNonempty env.cached = true) :
    check_status held env =
      ⟨some (applyPatch held env.cached), applyPatch held env.cached,
       false, false, false, false⟩ := by
  simp [check_status, hc]

/-- C10 witness: a cached `{platform: major}` hash short-circuits the tick
even inside the maintenance window. -/
theorem check_status_cached_spec_witness :
    check_status initialStatuses ⟨⟨some "major", none, none⟩, true, none⟩ =
      ⟨some ⟨"major", "operational", "operational"⟩,
       ⟨"major", "operational", "operational"⟩, false, false, false, false⟩ :=
  check_status_cached_spec initialStatuses ⟨⟨some "major", none, none⟩, true, none⟩ rfl

/-- Writing one component leaves every other component unchanged. -/
theorem getComp_setComp_ne (st : Statuses) (comp c : Component) (v : String)
    (h : comp ≠ c) : getComp (setComp st comp v) c = getComp st c := by
  cases comp <;> cases c <;> first | rfl | exact absurd rfl h

/-- The parse/diff loop never touches a component no block routes to. -/
theorem foldl_processBlock_frame (c : Component) :
    ∀ (blocks : List Block) (sc : Statuses × Bool),
      (∀ b ∈ blocks, blockTargets b ≠ some c) →
      getComp (blocks.foldl processBlock sc).1 c = getComp sc.1 c := by
  intro blocks
  induction blocks with
  | nil => intro sc _; rfl
  | cons b bs ih =>
    intro sc h
    have hb := h b (List.mem_cons_self b bs)
    have hrest : ∀ b' ∈ bs, blockTargets b' ≠ some c :=
      fun b' hb' => h b' (List.mem_cons_of_mem b hb')
    rw [List.foldl_cons, ih _ hrest]
    rcases b with ⟨nm, attr⟩
    cases nm with
    | none => rfl
    | some nm =>
      cases attr with
      | none => rfl
      | some a =>
        cases hr : routeName nm with
        | none => simp [processBlock, hr]
        | some comp =>
          have hcc : comp ≠ c := by
            intro hcc
            exact hb (by simp [blockTargets, hr, hcc])
          simp only [processBlock, hr]
          exact getComp_setComp_ne sc.1 comp c _ hcc

/-- C5: the parse/diff loop of `check_status` updates only the components
its blocks mention and leaves every unmentioned component's state
unchanged; in particular from held `{platform: operational, pu: degraded,
ea: operational}` and the single parsed block `{platform: major}` the
result is `{platform: major, pu: degraded, ea: operational}`. -/
theorem check_status_merge_spec :
    (∀ (held : Statuses) (blocks : List Block) (c : Component),
      (∀ b ∈ blocks, blockTargets b ≠ some c) →
      getComp (runBlocks held blocks).1 c = getComp held c)
    ∧ runBlocks ⟨"operational", "degraded", "operational"⟩
        [⟨some "Platform", some (some "major")⟩] =
      (⟨"major", "degraded", "operational"⟩, true) := by
  constructor
  · intro held blocks c h
    exact foldl_processBlock_frame c blocks (held, false) h
  · decide

/-- C5 witness: the frame part applied to the example page, which mentions
only the platform component, keeps `persistent-universe` at `degraded`. -/
theorem check_status_merge_spec_witness :
    getComp (runBlocks ⟨"operational", "degraded", "operational"⟩
      [⟨some "Platform", some (some "major")⟩]).1 Component.persistentUniverse =
      "degraded" :=
  (check_status_merge_spec.1 ⟨"operational", "degraded", "operational"⟩
    [⟨some "Platform", some (some "major")⟩] Component.persistentUniverse
    (by decide)).trans rfl

/-- Routing of the canonical component names. -/
theorem routeName_platform_name : routeName "platform" = some Component.platform := by
  decide

/-- Routing of the canonical persistent-universe name. -/
theorem routeName_pu_name :
    routeName "persistent universe" = some Component.persistentUniverse := by
  decide

/-- Routing of the canonical arena-commander name. -/
theorem routeName_ea_name :
    routeName "arena commander" = some Component.electronicAccess := by
  decide

/-- C6: `diff_and_update` is idempotent: applying the same partial snapshot
twice in succession yields `changed = false` on the second application, and
the snapshot is unchanged by it. -/
theorem diff_and_update_idempotent (held : Statuses) (p : SnapshotPatch) :
    (diff_and_update (diff_and_update held p).1 p).2 = false ∧
    (diff_and_update (diff_and_update held p).1 p).1 = (diff_and_update held p).1 := by
  rcases p with ⟨pp, pu, pe⟩
  cases pp <;> cases pu <;> cases pe <;>
    simp [diff_and_update, runBlocks, patchBlocks, processBlock,
      routeName_platform_name, routeName_pu_name, routeName_ea_name,
      getComp, setComp]

/-- C7: blocks missing either span are skipped without error, unrecognised
names are ignored, recognised names are matched case-insensitively by
substring against the three keywords in the code's `if`/`elif` order and
mapped onto the tracked components, and a page with no arena-commander
block leaves the `electronic-access` component untouched. -/
theorem parse_status_page_robustness :
    (∀ (sc : Statuses × Bool) (b : Block),
      b.nameSpan = none ∨ b.statusSpan = none → processBlock sc b = sc)
    ∧ (∀ (sc : Statuses × Bool) (nm : String) (attr : Option String),
      routeName nm = none → processBlock sc ⟨some nm, some attr⟩ = sc)
    ∧ (∀ nm : String,
        (strHasSub "platform" (pyLower (pyStrip nm)) = true →
          routeName nm = some Component.platform)
      ∧ (strHasSub "platform" (pyLower (pyStrip nm)) = false →
          strHasSub "persistent universe" (pyLower (pyStrip nm)) = true →
          routeName nm = some Component.persistentUniverse)
      ∧ (strHasSub "platform" (pyLower (pyStrip nm)) = false →
          strHasSub "persistent universe" (pyLower (pyStrip nm)) = false →
          strHasSub "arena commander" (pyLower (pyStrip nm)) = true →
          routeName nm = some Component.electronicAccess))
    ∧ (∀ (held : Statuses) (blocks : List Block),
        (∀ b ∈ blocks, blockTargets b ≠ some Component.electronicAccess) →
        getComp (runBlocks held blocks).1 Component.electronicAccess =
          getComp held Component.electronicAccess) := by
  refine ⟨?_, ?_, ?_, ?_⟩
  · rintro sc ⟨nm, attr⟩ (h | h)
    · simp only at h
      subst h
      rfl
    · simp only at h
      subst h
      cases nm <;> rfl
  · intro sc nm attr h
    simp [processBlock, h]
  · intro nm
    refine ⟨?_, ?_, ?_⟩
    · intro h
      simp [routeName, h]
    · intro h1 h2
      simp [routeName, h1, h2]
    · intro h1 h2 h3
      simp [routeName, h1, h2, h3]
  · intro held blocks h
    exact foldl_processBlock_frame Component.electronicAccess blocks (held, false) h

/-- C7 witness: an unknown `Spectrum` block is ignored, a mixed-case padded
arena-commander name is routed, and a page carrying only platform and
persistent-universe blocks leaves `electronic-access` at its held state. -/
theorem parse_status_page_robustness_witness :
    processBlock (initialStatuses, false) ⟨some "Spectrum", some (some "major")⟩ =
      (initialStatuses, false) ∧
    routeName " ARENA Commander " = some Component.electronicAccess ∧
    getComp (runBlocks ⟨"operational", "operational", "operational"⟩
      [⟨some "Platform", some (some "major")⟩,
       ⟨some "Persistent Universe", some (some "degraded")⟩]).1
      Component.electronicAccess = "operational" :=
  ⟨parse_status_page_robustness.2.1 (initialStatuses, false) "Spectrum" (some "major")
      (by decide),
   (parse_status_page_robustness.2.2.1 " ARENA Commander ").2.2
      (by decide) (by decide) (by decide),
   (parse_status_page_robustness.2.2.2 ⟨"operational", "operational", "operational"⟩
      [⟨some "Platform", some (some "major")⟩,
       ⟨some "Persistent Universe", some (some "degraded")⟩] (by decide)).trans rfl⟩

/-- C8 counterexample: with tag list `["major", "degraded"]` the second
status-keyword tag contributes to neither field of the constructed
incident: it is excluded from `components` and is not the chosen status. -/
theorem incident_tag_partition_counterexample :
    "degraded" ∈ (["major", "degraded"] : List String) ∧
    "degraded" ∉
      (incidentOfEntry ⟨"g", "t", "d", "l", ["major", "degraded"]⟩).components ∧
    (incidentOfEntry ⟨"g", "t", "d", "l", ["major", "degraded"]⟩).status ≠
      "degraded" := by
  decide

/-- When the tag list holds at most one status keyword, the first keyword
scan finds exactly any keyword member. -/
theorem find_unique_keyword :
    ∀ (tags : List String), tags.countP (fun t => isStatusKeyword t) ≤ 1 →
      ∀ t ∈ tags, isStatusKeyword t = true →
      tags.find? (fun t => isStatusKeyword t) = some t := by
  intro tags
  induction tags with
  | nil =>
    intro _ t ht
    simp at ht
  | cons a as ih =>
    intro hcount t ht hkw
    rw [List.countP_cons] at hcount
    cases ha : isStatusKeyword a with
    | true =>
      rw [List.find?_cons_of_pos _ ha]
      rcases List.mem_cons.mp ht with rfl | htail
      · rfl
      · exfalso
        have hpos : 0 < as.countP (fun t => isStatusKeyword t) :=
          List.countP_pos_iff.mpr ⟨t, htail, hkw⟩
        have h1 : (if (fun t => isStatusKeyword t) a then 1 else 0) = 1 := by
          simp [ha]
        rw [h1] at hcount
        omega
    | false =>
      rw [List.find?_cons_of_neg _ (by simp [ha])]
      rcases List.mem_cons.mp ht with rfl | htail
      · rw [ha] at hkw
        cases hkw
      · refine ih ?_ t htail hkw
        simpa [ha] using hcount

/-- C8 (amended): the constructed incident's `components` are exactly the
non-keyword tags, its `status` is the first status-keyword tag (defaulting
to `'unknown'`), and when the tag list holds at most one status keyword,
every tag contributes to exactly one of the two fields; with two or more
keyword tags the later ones are dropped. -/
theorem incident_tag_partition (e : Entry) :
    (∀ t : String, t ∈ (incidentOfEntry e).components ↔
        (t ∈ e.tags ∧ isStatusKeyword t = false))
    ∧ (incidentOfEntry e).status =
        (e.tags.find? (fun t => isStatusKeyword t)).getD "unknown"
    ∧ (e.tags.countP (fun t => isStatusKeyword t) ≤ 1 →
        ∀ t ∈ e.tags,
          (t ∈ (incidentOfEntry e).components ∧
            ¬ (isStatusKeyword t = true ∧ (incidentOfEntry e).status = t)) ∨
          (t ∉ (incidentOfEntry e).components ∧
            isStatusKeyword t = true ∧ (incidentOfEntry e).status = t)) := by
  have hmem : ∀ t : String, t ∈ (incidentOfEntry e).components ↔
      (t ∈ e.tags ∧ isStatusKeyword t = false) := by
    intro t
    simp [incidentOfEntry, List.mem_filter]
  refine ⟨hmem, rfl, ?_⟩
  intro hcount t ht
  cases hkw : isStatusKeyword t with
  | false =>
    left
    refine ⟨(hmem t).mpr ⟨ht, hkw⟩, ?_⟩
    rintro ⟨h1, _⟩
    exact Bool.noConfusion h1
  | true =>
    right
    refine ⟨?_, rfl, ?_⟩
    · intro hin
      have hfalse := ((hmem t).mp hin).2
      rw [hkw] at hfalse
      exact Bool.noConfusion hfalse
    · show (e.tags.find? (fun t => isStatusKeyword t)).getD "unknown" = t
      rw [find_unique_keyword e.tags hcount t ht hkw]
      rfl

/-- C8 witness: the amended partition at a concrete entry with one keyword
tag and one component tag. -/
theorem incident_tag_partition_witness :
    ("major" ∈ (incidentOfEntry
        ⟨"g1", "t", "d", "l", ["major", "Persistent Universe"]⟩).components ∧
      ¬ (isStatusKeyword "major" = true ∧
        (incidentOfEntry
          ⟨"g1", "t", "d", "l", ["major", "Persistent Universe"]⟩).status = "major")) ∨
    ("major" ∉ (incidentOfEntry
        ⟨"g1", "t", "d", "l", ["major", "Persistent Universe"]⟩).components ∧
      isStatusKeyword "major" = true ∧
      (incidentOfEntry
        ⟨"g1", "t", "d", "l", ["major", "Persistent Universe"]⟩).status = "major") :=
  (incident_tag_partition ⟨"g1", "t", "d", "l", ["major", "Persistent Universe"]⟩).2.2
    (by decide) "major" (by decide)

/-- C9: whenever the cache path is not taken, a feed whose parse raised and
a feed with zero entries both yield no incident and no cache/history write
from `get_latest_incident`. -/
theorem get_latest_incident_none_spec (env : IncidentFetchEnv) (content : String)
    (hcache : env.cachedIncident = none)
    (hfetch : env.fetched = some content)
    (hparse : env.parse content = ParseOutcome.failed ∨
              env.parse content = ParseOutcome.entries []) :
    get_latest_incident env = ⟨none, false⟩ := by
  rcases hparse with h | h <;>
    cases hw : env.inWindow <;>
      simp [get_latest_incident, hcache, hfetch, h, hw]

/-- C9 witness: a fetched feed that parses to zero entries yields nothing. -/
theorem get_latest_incident_none_spec_witness :
    get_latest_incident ⟨false, none, some "xml", fun _ => ParseOutcome.entries []⟩ =
      ⟨none, false⟩ :=
  get_latest_incident_none_spec
    ⟨false, none, some "xml", fun _ => ParseOutcome.entries []⟩ "xml" rfl rfl (Or.inr rfl)

/-- Once both the held and the persisted last-seen ids equal `g`, any event
whose fetched incident (if any) carries guid `g` preserves that and emits
nothing. -/
theorem stepEvent_seen (g : String) (s : IncMonitorState) (e : IncEvent)
    (hs : seenGuid g s) (he : eventSameGuid g e = true) :
    seenGuid g (stepEvent s e).1 ∧ (stepEvent s e).2 = false := by
  rcases hs with ⟨h1, h2⟩
  cases e with
  | tick latest ok =>
    cases latest with
    | none => exact ⟨⟨h1, h2⟩, rfl⟩
    | some i =>
      have hg : i.guid = g := by simpa [eventSameGuid] using he
      have hl : s.lastGuid = some i.guid := by rw [hg, h1]
      refine ⟨⟨?_, ?_⟩, ?_⟩ <;> simp [stepEvent, check_incidents_tick, hl, h1, h2, hg]
  | restart => exact ⟨⟨h2, h2⟩, rfl⟩
  | shutdown =>
    refine ⟨⟨h1, ?_⟩, rfl⟩
    simp [stepEvent, h1]

/-- No notification is emitted along any run starting from a state that has
already announced `g`, as long as every fetched incident carries guid `g`. -/
theorem countEmits_seen (g : String) :
    ∀ (events : List IncEvent) (s : IncMonitorState),
      (∀ e ∈ events, eventSameGuid g e = true) → seenGuid g s →
      countEmits s events = 0 := by
  intro events
  induction events with
  | nil => intro s _ _; rfl
  | cons e es ih =>
    intro s h hs
    have he := h e (List.mem_cons_self e es)
    have hrest : ∀ e' ∈ es, eventSameGuid g e' = true :=
      fun e' he' => h e' (List.mem_cons_of_mem e he')
    have hstep := stepEvent_seen g s e hs he
    show (stepEvent s e).2.toNat + countEmits (stepEvent s e).1 es = 0
    rw [hstep.2, ih (stepEvent s e).1 hrest hstep.1]
    rfl

/-- An emission on an event with guid `g` leaves the monitor in the
already-announced state for `g`. -/
theorem emit_sets_seen (g : String) (s : IncMonitorState) (e : IncEvent)
    (he : eventSameGuid g e = true) (hemit : (stepEvent s e).2 = true) :
    seenGuid g (stepEvent s e).1 := by
  cases e with
  | tick latest ok =>
    cases latest with
    | none => exact Bool.noConfusion hemit
    | some i =>
      have hg : i.guid = g := by simpa [eventSameGuid] using he
      by_cases hl : s.lastGuid = some i.guid
      · simp [stepEvent, check_incidents_tick, hl] at hemit
      · cases hok : ok
        · simp [stepEvent, check_incidents_tick, hl, hok] at hemit
        · rw [hg] at hl
          constructor <;> simp [stepEvent, check_incidents_tick, hg, hl, hok]
  | restart => exact Bool.noConfusion hemit
  | shutdown => exact Bool.noConfusion hemit

/-- At most one emission along any run whose ticks all fetch guid `g`. -/
theorem countEmits_le_one (g : String) :
    ∀ (events : List IncEvent) (s : IncMonitorState),
      (∀ e ∈ events, eventSameGuid g e = true) →
      countEmits s events ≤ 1 := by
  intro events
  induction events with
  | nil => intro s _; exact Nat.zero_le 1
  | cons e es ih =>
    intro s h
    have he := h e (List.mem_cons_self e es)
    have hrest : ∀ e' ∈ es, eventSameGuid g e' = true :=
      fun e' he' => h e' (List.mem_cons_of_mem e he')
    show (stepEvent s e).2.toNat + countEmits (stepEvent s e).1 es ≤ 1
    cases hemit : (stepEvent s e).2
    · have hrec := ih (stepEvent s e).1 hrest
      simp only [Bool.toNat_false]
      omega
    · have hseen := emit_sets_seen g s e he hemit
      rw [countEmits_seen g es (stepEvent s e).1 hrest hseen]
      exact Nat.le_refl 1

/-- C1: a notification is emitted on a tick only when the fetched incident's
id differs from the held last-seen id, and on such a tick both the held and
the persisted ids are updated to it; consequently, along any run of ticks,
restarts (which reload the persisted id) and shutdowns in which every
fetched incident carries one fixed id, at most one notification is ever
emitted for that id. -/
theorem incident_at_most_once :
    (∀ (s : IncMonitorState) (i : Incident) (ok : Bool),
      (check_incidents_tick s (some i) ok).2 = true →
        s.lastGuid ≠ some i.guid ∧
        (check_incidents_tick s (some i) ok).1.lastGuid = some i.guid ∧
        (check_incidents_tick s (some i) ok).1.persisted = some i.guid)
    ∧ (∀ (g : String) (s : IncMonitorState) (events : List IncEvent),
        (∀ e ∈ events, eventSameGuid g e = true) →
        countEmits s events ≤ 1) := by
  constructor
  · intro s i ok hemit
    by_cases hl : s.lastGuid = some i.guid
    · simp [check_incidents_tick, hl] at hemit
    · cases hok : ok
      · simp [check_incidents_tick, hl, hok] at hemit
      · refine ⟨hl, ?_, ?_⟩ <;> simp [check_incidents_tick, hl, hok]
  · intro g s events h
    exact countEmits_le_one g events s h

/-- C1 witness: three ticks all fetching incident `INC-1`, with a clean
shutdown and a restart in between, emit exactly at most one notification
from the fresh state. -/
theorem incident_at_most_once_witness :
    countEmits ⟨none, none⟩
      [IncEvent.tick (some ⟨"INC-1", "t", "d", "l", [], "major"⟩) true,
       IncEvent.tick (some ⟨"INC-1", "t", "d", "l", [], "major"⟩) true,
       IncEvent.shutdown, IncEvent.restart,
       IncEvent.tick (some ⟨"INC-1", "t", "d", "l", [], "major"⟩) true] ≤ 1 :=
  incident_at_most_once.2 "INC-1" ⟨none, none⟩
    [IncEvent.tick (some ⟨"INC-1", "t", "d", "l", [], "major"⟩) true,
     IncEvent.tick (some ⟨"INC-1", "t", "d", "l", [], "major"⟩) true,
     IncEvent.shutdown, IncEvent.restart,
     IncEvent.tick (some ⟨"INC-1", "t", "d", "l", [], "major"⟩) true]
    (by decide)

end DraXon
